import Mathlib

/-!
Shallow embedding of `flupsession` (src/flupsession/_session.py), a WSGI
middleware storing session state in an encrypted, signed cookie, together
with proofs about its session lifecycle.

Modelling conventions:
* A Python `dict` is an insertion-ordered association list
  `List (String × V)` with string keys; the value type `V` stays abstract.
* Python exceptions are modelled with `Except PyErr` (or, for operations
  that mutate in place before raising, a pair of the post-state and an
  optional raised error, since the mutation survives the exception).
* The external libraries (`json`, `zlib`, `cryptography.fernet`,
  `http.cookies`) are not part of the repository; their functions appear
  as abstract fields of a `Codec` record, and theorems that depend on
  their documented behaviour take that behaviour as an explicit
  round-trip hypothesis.  `zlib.compress`'s documented rejection of
  compression levels outside -1..9 is modelled by `zlibCompressModel`.
* `SimpleCookie` parsing is external; a parsed cookie is an
  `Option (Morsel T)` input (`none` covers both an absent cookie and a
  `CookieError`, which `_load_session` treats identically).  A morsel's
  `path` attribute defaults to the empty string, as in `http.cookies`.
* The integer `expires` cookie attribute is relative seconds from the
  moment of rendering (as interpreted by `http.cookies._getdate`);
  a negative value is a date in the past.
-/

namespace FlupSession

/-- Python-level errors that the middleware code can raise or catch:
`KeyError` from dict operations, the `NameError` raised by
`Session.update`'s unbound `result`, `ValueError` from the constructor,
`zlib.error`, `cryptography.fernet.InvalidToken`, and
`SessionSerializerException`. -/
inductive PyErr where
  | keyError
  | nameError
  | valueError
  | zlibError
  | invalidToken
  | serializerError
deriving DecidableEq, Repr

/-- The `Session` class (a `dict` subclass): the mapping contents plus the
`_dirty` flag, the `_valid` flag and the `path` attribute set by
`SessionMiddleware._load_session`. -/
structure Session (V : Type) where
  data : List (String × V)
  dirty : Bool
  valid : Bool
  path : Option String
deriving Repr

/-- `Session.__init__(values)`: starts clean and valid with `path = None`. -/
def Session.mk0 {V : Type} (values : List (String × V)) : Session V :=
  { data := values, dirty := false, valid := true, path := none }

/-- Ordered-dict assignment `d[k] = v`: overwrite in place if the key is
present, otherwise append. -/
def listSet {V : Type} (l : List (String × V)) (k : String) (v : V) :
    List (String × V) :=
  if l.any (fun p => p.1 == k) then
    l.map (fun p => if p.1 == k then (k, v) else p)
  else
    l ++ [(k, v)]

/-- Ordered-dict deletion `del d[k]` (the key is assumed present). -/
def listErase {V : Type} (l : List (String × V)) (k : String) :
    List (String × V) :=
  l.filter (fun p => p.1 != k)

/-- `dict.update(other)`: assign every pair of `other` in order. -/
def listUpdate {V : Type} (l other : List (String × V)) :
    List (String × V) :=
  other.foldl (fun acc p => listSet acc p.1 p.2) l

/-- `Session.save()`: mark the session dirty. -/
def Session.save {V : Type} (s : Session V) : Session V :=
  { s with dirty := true }

/-- `Session.clear()`: empty the mapping, then `save()`. -/
def Session.clearAll {V : Type} (s : Session V) : Session V :=
  Session.save { s with data := [] }

/-- `Session.invalidate()`: `clear()` (which marks dirty), then set
`_valid = False`. -/
def Session.invalidate {V : Type} (s : Session V) : Session V :=
  { s.clearAll with valid := false }

/-- The operations application code can perform on a session.  `popOp`
carries the optional default argument; `setDefault` carries the default
value inserted when the key is absent; `updateOp` carries the other
mapping. -/
inductive SessOp (V : Type) where
  | setItem (k : String) (v : V)
  | delItem (k : String)
  | clearOp
  | popOp (k : String) (dflt : Option V)
  | popItemOp
  | setDefault (k : String) (v : V)
  | updateOp (other : List (String × V))
  | saveOp
  | invalidateOp

/-- One session operation, as the `Session` class implements it: the
resulting state (Python objects mutate in place, so mutations performed
before an exception survive it) together with the error raised, if any.

* `__setitem__`, `clear` mutate then `save()`.
* `__delitem__` raises `KeyError` on a missing key before `save()` runs.
* `pop` forwards to `dict.pop`: missing key with a default still reaches
  `save()`; missing key without one raises `KeyError` first.
* `popitem` removes the most recently inserted pair or raises `KeyError`
  on an empty dict; `setdefault` reaches `save()` in both branches.
* `update` mutates, calls `save()`, then executes `return result` where
  `result` is never bound — a `NameError` on every call. -/
def Session.step {V : Type} (s : Session V) : SessOp V → Session V × Option PyErr
  | .setItem k v => (Session.save { s with data := listSet s.data k v }, none)
  | .delItem k =>
      if s.data.any (fun p => p.1 == k) then
        (Session.save { s with data := listErase s.data k }, none)
      else
        (s, some .keyError)
  | .clearOp => (s.clearAll, none)
  | .popOp k dflt =>
      if s.data.any (fun p => p.1 == k) then
        (Session.save { s with data := listErase s.data k }, none)
      else
        match dflt with
        | some _ => (s.save, none)
        | none => (s, some .keyError)
  | .popItemOp =>
      match s.data with
      | [] => (s, some .keyError)
      | _ => (Session.save { s with data := s.data.dropLast }, none)
  | .setDefault k v =>
      if s.data.any (fun p => p.1 == k) then
        (s.save, none)
      else
        (Session.save { s with data := s.data ++ [(k, v)] }, none)
  | .updateOp other =>
      (Session.save { s with data := listUpdate s.data other }, some .nameError)
  | .saveOp => (s.save, none)
  | .invalidateOp => (s.invalidate, none)

/-- The state after an operation (discarding the raised error, if any). -/
def Session.applyOp {V : Type} (s : Session V) (op : SessOp V) : Session V :=
  (s.step op).1

/-- The state after a sequence of operations. -/
def Session.applyOps {V : Type} (s : Session V) (ops : List (SessOp V)) : Session V :=
  ops.foldl Session.applyOp s

/-- The external primitives the middleware composes, as configured at
construction: the serializer pair (`json` / `pickle` libraries wrapped by
`JSONSessionSerializer` / `PickleSessionSerializer`, whose `decode` wraps
failures in `SessionSerializerException`), the compressor pair stored in
`self._compressor`, and the Fernet instance `self._crypto`.  `B` is the
type of encoded byte payloads, `T` the type of sealed tokens; `decrypt`
takes the `ttl` argument (`none` models Python `ttl=None`, for which
Fernet performs no freshness check). -/
structure Codec (V B T : Type) where
  serEncode : List (String × V) → B
  serDecode : B → Except PyErr (List (String × V))
  compress : B → Except PyErr B
  decompress : B → Except PyErr B
  encrypt : B → T
  decrypt : T → Option Int → Except PyErr B

/-- The constructor arguments of `SessionMiddleware.__init__` that the
claims depend on. -/
structure MWConfig where
  cookieDomain : Option String
  cookiePath : Option String
  cookieExpires : Option Int
  httponly : Bool
  secure : Option Bool
  sessionTtlArg : Option Int
  serializer : String
  compression : Option Int
deriving Repr

/-- The expression
`session_ttl is not None and session_ttl or cookie_expires` under Python
truthiness: the explicit `session_ttl` wins only when it is non-`None`
and non-zero; otherwise the value falls through to `cookie_expires`. -/
def computeSessionTtl (sessionTtlArg cookieExpires : Option Int) : Option Int :=
  match sessionTtlArg with
  | some t => if t == 0 then cookieExpires else some t
  | none => cookieExpires

/-- The serializer variants recognised by the constructor. -/
inductive SerTag where
  | json
  | pickle
deriving DecidableEq, Repr

/-- The configuration state a successfully constructed middleware holds. -/
structure Middleware where
  cookieDomain : Option String
  cookiePath : Option String
  cookieExpires : Option Int
  httponly : Bool
  secure : Option Bool
  sessionTtl : Option Int
  serTag : SerTag
  compression : Option Int
deriving Repr

/-- `SessionMiddleware.__init__`: computes `_session_ttl`, validates the
serializer tag (`raise ValueError('Unknown serializer')` on anything but
`json` / `pickle`), and stores the compression level without examining
it — when `compression is not None` the zlib pair is stored with the
level captured in a closure, otherwise the no-op pair. -/
def mkMiddleware (cfg : MWConfig) : Except PyErr Middleware :=
  if cfg.serializer == "json" then
    .ok ⟨cfg.cookieDomain, cfg.cookiePath, cfg.cookieExpires, cfg.httponly,
      cfg.secure, computeSessionTtl cfg.sessionTtlArg cfg.cookieExpires,
      SerTag.json, cfg.compression⟩
  else if cfg.serializer == "pickle" then
    .ok ⟨cfg.cookieDomain, cfg.cookiePath, cfg.cookieExpires, cfg.httponly,
      cfg.secure, computeSessionTtl cfg.sessionTtlArg cfg.cookieExpires,
      SerTag.pickle, cfg.compression⟩
  else
    .error .valueError

/-- Whether `level` is a compression level `zlib.compress` accepts
(-1 or 0..9); any other level makes `zlib.compress` raise `zlib.error`. -/
def zlibLevelOk (level : Int) : Bool :=
  level == -1 || (decide (0 ≤ level) && decide (level ≤ 9))

/-- `zlib.compress(data, level)` as the repository observes it: the level
is validated only when the call happens; `f` abstracts the actual byte
transformation at a valid level. -/
def zlibCompressModel {B : Type} (f : B → B) (level : Int) (data : B) :
    Except PyErr B :=
  if zlibLevelOk level then .ok (f data) else .error .zlibError

/-- The `self._compressor = (compress, decompress)` pair built by the
constructor: the zlib pair with the captured level when a level was
given, the no-op pair when `compression is None`. -/
def mkCompressor {B : Type} (compression : Option Int)
    (zcompress : Int → B → Except PyErr B)
    (zdecompress : B → Except PyErr B) :
    (B → Except PyErr B) × (B → Except PyErr B) :=
  match compression with
  | some level => (fun data => zcompress level data, zdecompress)
  | none => (fun data => .ok data, fun data => .ok data)

/-- The outbound pipeline of `_add_cookie`:
`self._crypto.encrypt(self._compressor[0](self._serializer.encode(session)))`. -/
def sealSession {V B T : Type} (c : Codec V B T) (s : Session V) :
    Except PyErr T :=
  match c.compress (c.serEncode s.data) with
  | .ok encoded => .ok (c.encrypt encoded)
  | .error e => .error e

/-- The inbound pipeline of `_load_session`:
`self._serializer.decode(self._compressor[1](self._crypto.decrypt(value, ttl)))`,
where any of `InvalidToken`, `zlib.error`, `SessionSerializerException`
aborts the pipeline. -/
def openToken {V B T : Type} (c : Codec V B T) (ttl : Option Int) (tok : T) :
    Except PyErr (List (String × V)) :=
  match c.decrypt tok ttl with
  | .error e => .error e
  | .ok data =>
    match c.decompress data with
    | .error e => .error e
    | .ok raw => c.serDecode raw

/-- The named cookie as extracted by `SimpleCookie`: its value (a sealed
token) and its `path` attribute (the empty string when absent). -/
structure Morsel (T : Type) where
  value : T
  path : String

/-- `SessionMiddleware._load_session`: with a morsel present, a
successful open yields a clean populated session, a failed open yields a
fresh empty session already marked dirty via `save()`; either way
`session.path = morsel['path']`.  With no morsel (no cookie, or a
`CookieError`), a fresh clean session with
`session.path = self._cookie_path`. -/
def loadSession {V B T : Type} (mw : Middleware) (c : Codec V B T)
    (morsel : Option (Morsel T)) : Session V :=
  match morsel with
  | some m =>
    (match openToken c mw.sessionTtl m.value with
     | .ok vals => { data := vals, dirty := false, valid := true, path := some m.path }
     | .error _ => { data := [], dirty := true, valid := true, path := some m.path })
  | none => { data := [], dirty := false, valid := true, path := mw.cookiePath }

/-- The cookie path computed in `_add_cookie`: `session.path` when not
`None`, else the request's `SCRIPT_NAME`; and `/` when the result is
falsy (the empty string). -/
def resolveCookiePath (sessionPath : Option String) (scriptName : String) :
    String :=
  let p := match sessionPath with
    | some q => q
    | none => scriptName
  if p == "" then "/" else p

/-- The attributes of the rendered `Set-Cookie` morsel.  `expires` is in
relative seconds (negative means a date in the past); `maxAge` is the
`max-age` attribute. -/
structure CookieOut (T : Type) where
  value : T
  domain : Option String
  path : String
  httponly : Bool
  secure : Bool
  expires : Option Int
  maxAge : Option Int
deriving Repr

/-- The morsel `_add_cookie` renders for a dirty session, given the
sealed token: domain only when configured truthy, the computed path,
`httponly` when configured, `secure` when configured true or (with
`secure=None`) when the request scheme is https, `expires` when
configured — and, for an invalidated session, `expires` forced a year
into the past with `max-age=0`. -/
def buildCookie {V T : Type} (mw : Middleware) (scriptName : String)
    (httpsScheme : Bool) (s : Session V) (tok : T) : CookieOut T :=
  let base : CookieOut T :=
    { value := tok
      domain := match mw.cookieDomain with
        | some d => if d == "" then none else some d
        | none => none
      path := resolveCookiePath s.path scriptName
      httponly := mw.httponly
      secure := (mw.secure == none && httpsScheme) || mw.secure == some true
      expires := mw.cookieExpires
      maxAge := none }
  if s.valid then base
  else { base with expires := some (-365 * 24 * 60 * 60), maxAge := some 0 }

/-- `SessionMiddleware._add_cookie`, returning the list of `Set-Cookie`
headers it appends: nothing when the session was never instantiated or
is not dirty; otherwise exactly the one rendered cookie (the 4000-byte
size check only emits a warning and is not modelled).  A failure while
sealing (for example `zlib.error` from a bad compression level)
propagates as a raised exception. -/
def addCookie {V B T : Type} (mw : Middleware) (c : Codec V B T)
    (scriptName : String) (httpsScheme : Bool) (holder : Option (Session V)) :
    Except PyErr (List (CookieOut T)) :=
  match holder with
  | none => .ok []
  | some s =>
    if s.dirty then
      match sealSession c s with
      | .ok tok => .ok [buildCookie mw scriptName httpsScheme s tok]
      | .error e => .error e
    else .ok []

/-- One request through `SessionMiddleware.__call__`: the session holder
stays empty unless the application accesses the session, in which case
the memoized session is loaded and the application's operations run on
it; `_add_cookie` then fires from `my_start_response`. -/
def processRequest {V B T : Type} (mw : Middleware) (c : Codec V B T)
    (scriptName : String) (httpsScheme : Bool) (morsel : Option (Morsel T))
    (accesses : Bool) (ops : List (SessOp V)) :
    Except PyErr (List (CookieOut T)) :=
  let holder : Option (Session V) :=
    if accesses then some ((loadSession mw c morsel).applyOps ops) else none
  addCookie mw c scriptName httpsScheme holder

/-- The number of `Set-Cookie` headers a request appended (`none` when
the request raised instead of responding). -/
def emittedCount {T : Type} (r : Except PyErr (List (CookieOut T))) :
    Option Nat :=
  match r with
  | .ok l => some l.length
  | .error _ => none

/-! Concrete instances used to instantiate the parametric theorems. -/

/-- A codec whose serializer, compressor and crypto are all the identity
(the no-op compressor is one of the code's own variants); every component
round-trips, so it satisfies the library contracts by computation. -/
def idCodec : Codec Nat (List (String × Nat)) (List (String × Nat)) :=
  { serEncode := fun m => m
    serDecode := fun m => .ok m
    compress := fun b => .ok b
    decompress := fun b => .ok b
    encrypt := fun b => b
    decrypt := fun t _ => .ok t }

/-- A codec whose `decrypt` always fails with `InvalidToken`: the Fernet
behaviour on a well-formed token whose signature does not verify. -/
def badCodec : Codec Nat (List (String × Nat)) (List (String × Nat)) :=
  { idCodec with decrypt := fun _ _ => .error .invalidToken }

/-- A default-like configuration: `json` serializer, no cookie options,
no explicit TTL, compression disabled. -/
def cfgDefault : MWConfig :=
  { cookieDomain := none, cookiePath := none, cookieExpires := none,
    httponly := true, secure := none, sessionTtlArg := none,
    serializer := "json", compression := none }

/-- `cfgDefault` with an unsupported compression level. -/
def cfgBadLevel : MWConfig :=
  { cfgDefault with compression := some 100 }

/-- A plain constructed middleware matching `cfgDefault`. -/
def mwPlain : Middleware :=
  { cookieDomain := none, cookiePath := none, cookieExpires := none,
    httponly := true, secure := none, sessionTtl := none,
    serTag := SerTag.json, compression := none }

/-- `idCodec` with its compressor replaced by the pair the constructor
builds for compression level 100, with `zlib.compress` modelled by
`zlibCompressModel`. -/
def zlibBadCodec : Codec Nat (List (String × Nat)) (List (String × Nat)) :=
  { idCodec with
    compress :=
      (mkCompressor (some 100) (zlibCompressModel (fun b => b))
        (fun b => .ok b)).1
    decompress :=
      (mkCompressor (some 100) (zlibCompressModel (fun b => b))
        (fun b => .ok b)).2 }

/-! Helper lemmas. -/

/-- No session operation ever sets `_valid` back to true. -/
theorem applyOp_valid_false {V : Type} (s : Session V) (op : SessOp V)
    (h : s.valid = false) : (s.applyOp op).valid = false := by
  cases op <;>
    simp only [Session.applyOp, Session.step, Session.save, Session.clearAll,
      Session.invalidate] <;>
    (try split) <;> (try split) <;> simp_all

/-- `_valid = False` is preserved by any sequence of session operations. -/
theorem applyOps_valid_false {V : Type} (s : Session V) (ops : List (SessOp V))
    (h : s.valid = false) : (s.applyOps ops).valid = false := by
  induction ops generalizing s with
  | nil => simpa [Session.applyOps] using h
  | cons op rest ih =>
      simpa [Session.applyOps, List.foldl_cons] using
        ih (s.applyOp op) (applyOp_valid_false s op h)

/-- C2: for every session mapping M in the serializer's value domain, the
outbound pipeline (serialize, compress, seal) followed by the inbound
pipeline (open, decompress, deserialize) yields M again.  The serializer,
compressor and Fernet primitives are external libraries; their documented
round-trip behaviour enters as the hypotheses `hser`, `hcomp`, `hcrypt`
(with `hser` also delimiting the serializer's value domain). -/
theorem c2_pipeline_roundtrip {V B T : Type} (c : Codec V B T)
    (ttl : Option Int) (M : List (String × V)) (s : Session V)
    (hdata : s.data = M)
    (hser : c.serDecode (c.serEncode M) = .ok M)
    (hcomp : ∀ b, ∃ bc, c.compress b = .ok bc ∧ c.decompress bc = .ok b)
    (hcrypt : ∀ b, c.decrypt (c.encrypt b) ttl = .ok b) :
    ∃ tok, sealSession c s = .ok tok ∧ openToken c ttl tok = .ok M := by
  obtain ⟨bc, hc, hd⟩ := hcomp (c.serEncode M)
  refine ⟨c.encrypt bc, ?_, ?_⟩
  · simp [sealSession, hdata, hc]
  · simp [openToken, hcrypt bc, hd, hser]

/-- Witness for C2 at a concrete mapping, with all pipeline stages
instantiated to concrete round-tripping components. -/
theorem c2_pipeline_roundtrip_witness :
    ∃ tok, sealSession idCodec (Session.mk0 [("count", 2)]) = .ok tok ∧
      openToken idCodec none tok = .ok [("count", 2)] :=
  c2_pipeline_roundtrip idCodec none [("count", 2)]
    (Session.mk0 [("count", 2)]) rfl rfl (fun b => ⟨b, rfl, rfl⟩)
    (fun _ => rfl)

/-- C3: the mutating operations on a concrete session.  Set item, delete
item, clear, pop, pop-item and set-default each complete without raising
and leave `dirty = true`, but `update` raises `NameError` on every call
(its `return result` references a name that is never bound), after having
merged the other mapping and set `dirty`.  This contradicts the claim
that every mutating operation completes without raising. -/
theorem c3_update_bug :
    (Session.step (Session.mk0 [("k", 0)]) (SessOp.updateOp [("a", 1)]) =
      ({ data := [("k", 0), ("a", 1)], dirty := true, valid := true,
         path := none }, some PyErr.nameError)) ∧
    (Session.step (Session.mk0 [("k", 0)]) (SessOp.setItem "a" 1) =
      ({ data := [("k", 0), ("a", 1)], dirty := true, valid := true,
         path := none }, none)) ∧
    (Session.step (Session.mk0 [("k", 0)]) (SessOp.delItem "k") =
      ({ data := [], dirty := true, valid := true, path := none }, none)) ∧
    (Session.step (Session.mk0 [("k", 0)]) SessOp.clearOp =
      ({ data := [], dirty := true, valid := true, path := none }, none)) ∧
    (Session.step (Session.mk0 [("k", 0)]) (SessOp.popOp "k" none) =
      ({ data := [], dirty := true, valid := true, path := none }, none)) ∧
    (Session.step (Session.mk0 [("k", 0)]) SessOp.popItemOp =
      ({ data := [], dirty := true, valid := true, path := none }, none)) ∧
    (Session.step (Session.mk0 [("k", 0)]) (SessOp.setDefault "x" 5) =
      ({ data := [("k", 0), ("x", 5)], dirty := true, valid := true,
         path := none }, none)) :=
  ⟨rfl, rfl, rfl, rfl, rfl, rfl, rfl⟩

/-- C7 counterexample: the default construction (no explicit freshness
TTL, no cookie expiry) succeeds and stores `_session_ttl = None`, which
is then passed to `Fernet.decrypt` as `ttl=None` — no freshness check at
all, contradicting the claimed bounded default. -/
theorem c7_counterexample :
    mkMiddleware cfgDefault = .ok mwPlain ∧ mwPlain.sessionTtl = none :=
  ⟨rfl, rfl⟩

/-- C7 amended: when no freshness TTL is explicitly configured the TTL
used for opening tokens equals the configured cookie expiry — including
the case where that is `None`, in which tokens are opened with no
freshness check. -/
theorem c7_ttl_defaults (cfg : MWConfig) (mw : Middleware)
    (httl : cfg.sessionTtlArg = none) (hok : mkMiddleware cfg = .ok mw) :
    mw.sessionTtl = cfg.cookieExpires := by
  unfold mkMiddleware at hok
  split at hok
  · cases hok
    simp [computeSessionTtl, httl]
  · split at hok
    · cases hok
      simp [computeSessionTtl, httl]
    · simp at hok

/-- Witness for C7 amended: a configuration with a cookie expiry and no
explicit TTL yields that expiry as the session TTL. -/
theorem c7_ttl_defaults_witness :
    ({ cookieDomain := none, cookiePath := none, cookieExpires := some 3600,
       httponly := true, secure := none, sessionTtl := some 3600,
       serTag := SerTag.json, compression := none } : Middleware).sessionTtl =
      ({ cfgDefault with cookieExpires := some 3600 } : MWConfig).cookieExpires :=
  c7_ttl_defaults { cfgDefault with cookieExpires := some 3600 }
    { cookieDomain := none, cookiePath := none, cookieExpires := some 3600,
      httponly := true, secure := none, sessionTtl := some 3600,
      serTag := SerTag.json, compression := none } rfl rfl

/-- C10: `_valid` starts true, is false after `invalidate` no matter what
operations follow, and every cookie rendered for such a session carries
an `expires` a year in the past and `max-age=0`, whatever data the
application added after invalidating. -/
theorem c10_valid_monotone {V T : Type} (vals : List (String × V))
    (s : Session V) (ops : List (SessOp V)) (mw : Middleware)
    (scriptName : String) (httpsScheme : Bool) (tok : T) :
    (Session.mk0 vals).valid = true ∧
    (s.invalidate.applyOps ops).valid = false ∧
    (buildCookie mw scriptName httpsScheme (s.invalidate.applyOps ops)
      tok).expires = some (-365 * 24 * 60 * 60) ∧
    (buildCookie mw scriptName httpsScheme (s.invalidate.applyOps ops)
      tok).maxAge = some 0 := by
  have hv : (s.invalidate.applyOps ops).valid = false :=
    applyOps_valid_false _ ops
      (by simp [Session.invalidate, Session.clearAll, Session.save])
  refine ⟨rfl, hv, ?_, ?_⟩ <;> simp [buildCookie, hv]

/-- C1 counterexample: a request presenting a cookie that fails to
decrypt loads a session already marked dirty, so even with the
application accessing the session and performing no mutating operation,
one `Set-Cookie` header is appended — not zero as the claim states. -/
theorem c1_counterexample :
    emittedCount (processRequest mwPlain badCodec "" false
      (some ⟨[("count", 1)], "/"⟩) true []) = some 1 ∧
    emittedCount (processRequest mwPlain badCodec "" false
      (some ⟨[("count", 1)], "/"⟩) true []) ≠ some 0 :=
  ⟨rfl, by decide⟩

/-- C1 amended: per request, no `Set-Cookie` is appended when the
application never accesses the session; when it accesses it, exactly one
is appended iff the session ends dirty (a mutating operation ran, or the
presented cookie failed to open and the fresh session was pre-marked
dirty), else none. -/
theorem c1_dirty_gating {V B T : Type} (mw : Middleware) (c : Codec V B T)
    (scriptName : String) (httpsScheme : Bool) (morsel : Option (Morsel T))
    (accesses : Bool) (ops : List (SessOp V))
    (hcomp : ∀ b, ∃ bc, c.compress b = .ok bc) :
    emittedCount (processRequest mw c scriptName httpsScheme morsel accesses ops) =
      some (if accesses = true ∧
              ((loadSession mw c morsel).applyOps ops).dirty = true
            then 1 else 0) := by
  cases accesses with
  | false => simp [processRequest, addCookie, emittedCount]
  | true =>
    obtain ⟨bc, hbc⟩ :=
      hcomp (c.serEncode ((loadSession mw c morsel).applyOps ops).data)
    by_cases hd : ((loadSession mw c morsel).applyOps ops).dirty = true
    · simp [processRequest, addCookie, sealSession, hbc, hd, emittedCount]
    · simp [processRequest, addCookie, emittedCount, hd]

/-- Witness for C1 amended: a request with no incoming cookie whose
application sets one key emits exactly one `Set-Cookie`. -/
theorem c1_dirty_gating_witness :
    emittedCount (processRequest mwPlain idCodec "" false none true
      [SessOp.setItem "count" 1]) = some 1 := by
  have h := c1_dirty_gating mwPlain idCodec "" false none true
    [SessOp.setItem "count" 1] (fun b => ⟨b, rfl⟩)
  rw [h]
  rfl

/-- C4: when a cookie is present but opening or decoding it fails, the
loaded session is empty, valid, bound to the incoming cookie's path and
already dirty, and a request that accesses the session without mutating
it still emits exactly one `Set-Cookie` overwriting the broken cookie. -/
theorem c4_failed_open_dirty {V B T : Type} (mw : Middleware)
    (c : Codec V B T) (scriptName : String) (httpsScheme : Bool)
    (m : Morsel T) (e : PyErr)
    (hfail : openToken c mw.sessionTtl m.value = .error e)
    (hcomp : ∀ b, ∃ bc, c.compress b = .ok bc) :
    loadSession mw c (some m) =
      ({ data := [], dirty := true, valid := true, path := some m.path } :
        Session V) ∧
    emittedCount (processRequest mw c scriptName httpsScheme (some m)
      true []) = some 1 := by
  have hload : loadSession mw c (some m) =
      ({ data := [], dirty := true, valid := true, path := some m.path } :
        Session V) := by
    simp [loadSession, hfail]
  obtain ⟨bc, hbc⟩ := hcomp (c.serEncode ([] : List (String × V)))
  refine ⟨hload, ?_⟩
  simp [processRequest, Session.applyOps, hload, addCookie, sealSession,
    hbc, emittedCount]

/-- Witness for C4: a concrete failing decrypt yields the dirty fresh
session and one emitted cookie. -/
theorem c4_failed_open_dirty_witness :
    loadSession mwPlain badCodec (some ⟨[("x", 7)], "/app"⟩) =
      ({ data := [], dirty := true, valid := true, path := some "/app" } :
        Session Nat) ∧
    emittedCount (processRequest mwPlain badCodec "sn" false
      (some ⟨[("x", 7)], "/app"⟩) true []) = some 1 :=
  c4_failed_open_dirty mwPlain badCodec "sn" false ⟨[("x", 7)], "/app"⟩
    PyErr.invalidToken rfl (fun b => ⟨b, rfl⟩)

/-- C5 counterexample: a well-formed cookie value failing integrity
verification loads an empty, valid session — but one that is already
marked dirty, so with no application mutation the response still carries
one `Set-Cookie`, not zero as the claim states. -/
theorem c5_counterexample :
    emittedCount (processRequest mwPlain badCodec "/cx5" false
      (some ⟨[("count", 9)], ""⟩) true []) = some 1 ∧
    emittedCount (processRequest mwPlain badCodec "/cx5" false
      (some ⟨[("count", 9)], ""⟩) true []) ≠ some 0 :=
  ⟨rfl, by decide⟩

/-- C5 amended: on an integrity failure the loaded session is empty and
valid but already dirty, so exactly one `Set-Cookie` is emitted even when
the application performs no mutating operation. -/
theorem c5_integrity_failure {V B T : Type} (mw : Middleware)
    (c : Codec V B T) (scriptName : String) (httpsScheme : Bool)
    (m : Morsel T)
    (hfail : c.decrypt m.value mw.sessionTtl = .error PyErr.invalidToken)
    (hcomp : ∀ b, ∃ bc, c.compress b = .ok bc) :
    (loadSession mw c (some m) : Session V).data = [] ∧
    (loadSession mw c (some m) : Session V).valid = true ∧
    (loadSession mw c (some m) : Session V).dirty = true ∧
    emittedCount (processRequest mw c scriptName httpsScheme (some m)
      true []) = some 1 := by
  have hopen : openToken c mw.sessionTtl m.value =
      (.error PyErr.invalidToken : Except PyErr (List (String × V))) := by
    simp [openToken, hfail]
  have hload : loadSession mw c (some m) =
      ({ data := [], dirty := true, valid := true, path := some m.path } :
        Session V) := by
    simp [loadSession, hopen]
  obtain ⟨bc, hbc⟩ := hcomp (c.serEncode ([] : List (String × V)))
  refine ⟨by rw [hload], by rw [hload], by rw [hload], ?_⟩
  simp [processRequest, Session.applyOps, hload, addCookie, sealSession,
    hbc, emittedCount]

/-- Witness for C5 amended at a concrete integrity-failing codec. -/
theorem c5_integrity_failure_witness :
    (loadSession mwPlain badCodec (some ⟨[("y", 4)], "/w5"⟩) :
      Session Nat).data = [] ∧
    (loadSession mwPlain badCodec (some ⟨[("y", 4)], "/w5"⟩) :
      Session Nat).valid = true ∧
    (loadSession mwPlain badCodec (some ⟨[("y", 4)], "/w5"⟩) :
      Session Nat).dirty = true ∧
    emittedCount (processRequest mwPlain badCodec "w5" true
      (some ⟨[("y", 4)], "/w5"⟩) true []) = some 1 :=
  c5_integrity_failure mwPlain badCodec "w5" true ⟨[("y", 4)], "/w5"⟩
    rfl (fun b => ⟨b, rfl⟩)

/-- C6: `invalidate` empties the mapping, sets `valid = false` and marks
the session dirty; responding afterwards yields exactly one cookie whose
`expires` lies a year in the past, whose `max-age` is 0, and whose sealed
payload opens back to the empty mapping (given the round-trip contracts
of the external serializer, compressor and Fernet primitives). -/
theorem c6_invalidate_cookie {V B T : Type} (mw : Middleware)
    (c : Codec V B T) (scriptName : String) (httpsScheme : Bool)
    (s : Session V) (ttl : Option Int)
    (hser : c.serDecode (c.serEncode ([] : List (String × V))) = .ok [])
    (hcomp : ∀ b, ∃ bc, c.compress b = .ok bc ∧ c.decompress bc = .ok b)
    (hcrypt : ∀ b, c.decrypt (c.encrypt b) ttl = .ok b) :
    s.invalidate =
      { data := [], dirty := true, valid := false, path := s.path } ∧
    ∃ ck, addCookie mw c scriptName httpsScheme (some s.invalidate) =
        .ok [ck] ∧
      ck.expires = some (-365 * 24 * 60 * 60) ∧
      (-365 * 24 * 60 * 60 : Int) < 0 ∧
      ck.maxAge = some 0 ∧
      openToken c ttl ck.value = .ok ([] : List (String × V)) := by
  obtain ⟨bc, hc, hd⟩ := hcomp (c.serEncode ([] : List (String × V)))
  have hdirty : s.invalidate.dirty = true := by
    simp [Session.invalidate, Session.clearAll, Session.save]
  have hdata : s.invalidate.data = [] := by
    simp [Session.invalidate, Session.clearAll, Session.save]
  have hvalid : s.invalidate.valid = false := by
    simp [Session.invalidate, Session.clearAll, Session.save]
  have hseal : sealSession c s.invalidate = .ok (c.encrypt bc) := by
    simp [sealSession, hdata, hc]
  refine ⟨by simp [Session.invalidate, Session.clearAll, Session.save],
    buildCookie mw scriptName httpsScheme s.invalidate (c.encrypt bc),
    ?_, ?_, by norm_num, ?_, ?_⟩
  · simp [addCookie, hdirty, hseal]
  · simp [buildCookie, hvalid]
  · simp [buildCookie, hvalid]
  · have hvalue : (buildCookie mw scriptName httpsScheme s.invalidate
        (c.encrypt bc)).value = c.encrypt bc := by
      simp [buildCookie, hvalid]
    simp [openToken, hvalue, hcrypt bc, hd, hser]

/-- Witness for C6: invalidating a concrete populated session and
responding with the identity codec gives the deletion cookie with an
empty payload. -/
theorem c6_invalidate_cookie_witness :
    (Session.mk0 [("a", 3)]).invalidate =
      { data := [], dirty := true, valid := false, path := none } ∧
    ∃ ck, addCookie mwPlain idCodec "/w6" false
        (some (Session.mk0 [("a", 3)]).invalidate) = .ok [ck] ∧
      ck.expires = some (-365 * 24 * 60 * 60) ∧
      (-365 * 24 * 60 * 60 : Int) < 0 ∧
      ck.maxAge = some 0 ∧
      openToken idCodec none ck.value = .ok ([] : List (String × Nat)) :=
  c6_invalidate_cookie mwPlain idCodec "/w6" false
    (Session.mk0 [("a", 3)]) none rfl (fun b => ⟨b, rfl, rfl⟩)
    (fun _ => rfl)

/-- C8 counterexample: with a configured cookie path of `/app` and an
incoming cookie scoped to `/other`, the emitted cookie's path is
`/other` — the incoming cookie's path, not the configured one, so the
configured path does not come first in the precedence. -/
theorem c8_counterexample :
    Except.map (fun l => l.map (fun ck => ck.path))
      (processRequest { mwPlain with cookiePath := some "/app" } idCodec
        "/script" false (some ⟨[("a", 1)], "/other"⟩) true
        [SessOp.setItem "b" 2]) = .ok ["/other"] ∧
    "/other" ≠ "/app" :=
  ⟨rfl, by decide⟩

/-- C8 amended: the emitted path is the session's remembered path when
that is not `None` — and a session loaded from an incoming cookie always
remembers that cookie's path, while the configured path is remembered
only when no cookie was presented — else the request's `SCRIPT_NAME`,
with `/` replacing an empty result. -/
theorem c8_path_resolution {V B T : Type} (mw : Middleware)
    (c : Codec V B T) (m : Morsel T) (p scriptName : String)
    (s : Session V) (tok : T) (httpsScheme : Bool) :
    (loadSession mw c (some m) : Session V).path = some m.path ∧
    (loadSession mw c (none : Option (Morsel T)) : Session V).path =
      mw.cookiePath ∧
    (buildCookie mw scriptName httpsScheme { s with path := some p }
      tok).path = (if p == "" then "/" else p) ∧
    (buildCookie mw scriptName httpsScheme { s with path := none }
      tok).path = (if scriptName == "" then "/" else scriptName) := by
  have hpath : ∀ s2 : Session V,
      (buildCookie mw scriptName httpsScheme s2 tok).path =
        resolveCookiePath s2.path scriptName := by
    intro s2
    by_cases h : s2.valid = true <;> simp [buildCookie, h]
  refine ⟨?_, rfl, ?_, ?_⟩
  · cases hE : openToken c mw.sessionTtl m.value <;> simp [loadSession, hE]
  · rw [hpath]
    simp [resolveCookiePath]
  · rw [hpath]
    simp [resolveCookiePath]

/-- C9 counterexample: construction with the `json` serializer and
compression level 100 succeeds, and the `zlib.error` for the unsupported
level first surfaces while emitting the response cookie for a dirty
session — compressor misconfiguration is not fail-fast. -/
theorem c9_counterexample :
    mkMiddleware cfgBadLevel = .ok { mwPlain with compression := some 100 } ∧
    addCookie { mwPlain with compression := some 100 } zlibBadCodec ""
      false (some (Session.save (Session.mk0 [("a", 1)]))) =
      .error PyErr.zlibError :=
  ⟨rfl, rfl⟩

/-- C9 amended: construction fails (with `ValueError`) exactly on an
unrecognized serializer tag; the compression level never affects whether
construction succeeds, so an unsupported level is only detected at
request time. -/
theorem c9_constructor_validation (cfg : MWConfig) (level : Int) :
    ((∃ mw, mkMiddleware cfg = .ok mw) ↔
      (cfg.serializer = "json" ∨ cfg.serializer = "pickle")) ∧
    ((∃ mw, mkMiddleware { cfg with compression := some level } = .ok mw) ↔
      (∃ mw, mkMiddleware cfg = .ok mw)) := by
  have h1 : ∀ cfg2 : MWConfig, (∃ mw, mkMiddleware cfg2 = .ok mw) ↔
      (cfg2.serializer = "json" ∨ cfg2.serializer = "pickle") := by
    intro cfg2
    unfold mkMiddleware
    by_cases hj : cfg2.serializer = "json"
    · simp [hj]
    · by_cases hp : cfg2.serializer = "pickle"
      · simp [hj, hp]
      · simp [hj, hp]
  refine ⟨h1 cfg, ?_⟩
  rw [h1, h1]

end FlupSession
